import Mathlib

/-!
Shallow embedding of `classy/predict.py` (module `classy.predict`), a
command-line prediction driver with two modes: a batch predictor over a
pre-built feature index, and a stream predictor over raw text rows.
External collaborators (the fitted pipeline object, the data loader, the
row generators and the feature encoder) are modelled as parameters: the
pipeline is a record of its `predict`, `predict_proba` and
`decision_function` capabilities, and the decoded row streams are given
as lists.  Machine integers do not occur; Python ints are `Int`/`Nat`
and score values are `Rat`.  Python exceptions are the `Err` type and
fallible code returns `Except Err`.
-/

set_option autoImplicit false

namespace Classy

/-- Python exception classes raised or caught by `predict.py`:
`ValueError` for usage errors, `AttributeError` for a missing pipeline
capability, `IndexError` for list indexing, `AssertionError` for the
stream-mode single-prediction assert. -/
inductive Err where
  | valueError : String → Err
  | attributeError : String → Err
  | indexError : Err
  | assertionError : String → Err
  deriving Repr, DecidableEq

/-- The command-line arguments consumed by `predict.py` (section 6 of the
spec).  `label = []` models both Python `None` and an empty list (both
falsy in `if args.label`); `vocabulary = none` models an absent
`--vocabulary` option.  The `annotate`/`feature` column selectors are
only forwarded to out-of-scope collaborators and are omitted. -/
structure Args where
  text : Bool
  index : List String
  model : String
  scores : Bool
  label : List String
  vocabulary : Option String
  csv : Bool
  no_id : Bool
  id_second : Bool
  id_last : Bool
  deriving Repr, DecidableEq

/-- `find_id_col` (predict.py lines 144-153): sequential conditionals
`no_id`, then `id_second`, then `id_last`, else the first column.
Python `None` is `none`, a column index is `some`. -/
def find_id_col (args : Args) : Option Int :=
  if args.no_id then none
  else if args.id_second then some 1
  else if args.id_last then some (-1)
  else some 0

/-- The decimal digit character for `d % 10`. -/
def digitChar (d : Nat) : Char :=
  Char.ofNat (48 + d % 10)

/-- The decimal digit characters of `n`, most significant first, as
Python `str` renders a nonnegative integer. -/
def natDigits (n : Nat) : List Char :=
  if n < 10 then [digitChar n]
  else natDigits (n / 10) ++ [digitChar (n % 10)]
  termination_by n
  decreasing_by exact Nat.div_lt_self (by omega) (by omega)

/-- Exactly `k` decimal digit characters: the value of `m` modulo
`10 ^ k`, zero-padded on the left, most significant first. -/
def padDigits : Nat → Nat → List Char
  | 0, _ => []
  | k + 1, m => padDigits k (m / 10) ++ [digitChar m]

/-- Python `str` of a nonnegative integer. -/
def pyStrNat (n : Nat) : String :=
  String.mk (natDigits n)

/-- Python `str` of an integer. -/
def pyStrInt (i : Int) : String :=
  if i < 0 then "-" ++ pyStrNat (-i).toNat else pyStrNat i.toNat

theorem digitChar_isDigit (d : Nat) : (digitChar d).isDigit = true := by
  have h : d % 10 < 10 := Nat.mod_lt _ (by omega)
  unfold digitChar
  set k := d % 10 with hk
  interval_cases k <;> decide

theorem natDigits_ne_nil (n : Nat) : natDigits n ≠ [] := by
  unfold natDigits
  split <;> simp

theorem natDigits_all_digit (n : Nat) :
    ∀ c ∈ natDigits n, c.isDigit = true := by
  induction n using Nat.strong_induction_on with
  | _ n ih =>
    unfold natDigits
    split
    · intro c hc
      simp only [List.mem_singleton] at hc
      subst hc; exact digitChar_isDigit n
    · intro c hc
      rcases List.mem_append.mp hc with h | h
      · exact ih (n / 10) (Nat.div_lt_self (by omega) (by omega)) c h
      · simp only [List.mem_singleton] at h
        subst h; exact digitChar_isDigit _

theorem padDigits_length (k : Nat) : ∀ m, (padDigits k m).length = k := by
  induction k with
  | zero => intro m; simp [padDigits]
  | succ k ih => intro m; simp [padDigits, ih]

theorem padDigits_all_digit (k : Nat) :
    ∀ m, ∀ c ∈ padDigits k m, c.isDigit = true := by
  induction k with
  | zero => intro m c hc; simp [padDigits] at hc
  | succ k ih =>
    intro m c hc
    rcases List.mem_append.mp hc with h | h
    · exact ih (m / 10) c h
    · simp only [List.mem_singleton] at h
      subst h; exact digitChar_isDigit _

/-- The object returned by `load_index` (an external collaborator): a
sparse feature matrix (opaque, of type `α`), an optional list of text
identifiers (`none` models Python `None`), and the row count returned by
`get_n_rows`. -/
structure IndexData (α : Type) where
  index : α
  text_ids : Option (List String)
  n_rows : Nat

/-- The deserialized pipeline object (an external collaborator, loaded
by `joblib.load`): `predict` returns one label index per input row;
`predict_proba` and `decision_function` are optional capabilities whose
per-row result is either a float scalar (`Sum.inl`) or a vector
(`Sum.inr`); `none` models the attribute being absent, so that calling
it raises `AttributeError`. -/
structure Pipeline (α : Type) where
  predict : α → List Int
  predict_proba : Option (α → List (Sum Rat (List Rat)))
  decision_function : Option (α → List (Sum Rat (List Rat)))

/-- The label resolver installed when `args.label` is truthy
(predict.py lines 43-45 and 115-117):
`lambda i: args.label[i] if i < n_labels else i`.  Python list indexing
resolves a negative index from the end of the list and raises
`IndexError` when it is still out of range. -/
def pyListGet (l : List String) (i : Int) : Except Err String :=
  let j : Int := if i < 0 then (l.length : Int) + i else i
  if 0 ≤ j then
    match l.get? j.toNat with
    | some x => .ok x
    | none => .error .indexError
  else .error .indexError

/-- `make_label` for a truthy label list: the raw index is passed
through (`Sum.inr`) only when `i < len(args.label)` fails; otherwise
Python indexing is attempted. -/
def make_label (label : List String) (i : Int) : Except Err (Sum String Int) :=
  if i < (label.length : Int) then Except.map Sum.inl (pyListGet label i)
  else .ok (.inr i)

/-- The label resolver actually used: `str` (identity on the index)
unless `args.label` is truthy (predict.py lines 41-45 and 111-117). -/
def resolve_label (label : List String) (i : Int) : Except Err (Sum String Int) :=
  if label.isEmpty then .ok (.inr i) else make_label label i

/-- Rendering of a resolved label by `print`: a name prints as itself,
a passed-through index prints as the integer. -/
def labelStr : Sum String Int → String
  | .inl s => s
  | .inr i => pyStrInt i

/-- Python format spec of the score fields (a space-or-minus sign flag
and fixed 8 decimal places, predict.py lines 64 and 141), on the exact
rational value of the score; rounding to 8 decimals uses `round` on the
magnitude. -/
def pyFormat08 (s : Rat) : String :=
  let n : Nat := (round (|s| * 100000000)).toNat
  (if s < 0 then "-" else " ") ++ pyStrNat (n / 100000000) ++ "." ++
    String.mk (padDigits 8 (n % 100000000))

/-- `isinstance(scores, float)` normalisation (predict.py lines 61-62
and 139-140): a float scalar becomes a one-element tuple, a vector is
kept as is. -/
def as_score_tuple : Sum Rat (List Rat) → List Rat
  | .inl s => [s]
  | .inr l => l

/-- The formatted fields of one row of scores. -/
def score_fields (x : Sum Rat (List Rat)) : List String :=
  (as_score_tuple x).map pyFormat08

/-- Python `sep.join` with a tab separator. -/
def tab_join : List String → String
  | [] => ""
  | [x] => x
  | x :: y :: rest => x ++ "\t" ++ tab_join (y :: rest)

/-- The tab-joined score string of one row (predict.py lines 64 and
141). -/
def format_scores (x : Sum Rat (List Rat)) : String :=
  tab_join (score_fields x)

/-- `get_scores` (predict.py lines 69-73): try `predict_proba`, fall
back to `decision_function` on `AttributeError`; if that is missing
too, the `AttributeError` escapes the `except` clause. -/
def get_scores {α : Type} (pipeline : Pipeline α) (matrix : α) :
    Except Err (List (Sum Rat (List Rat))) :=
  match pipeline.predict_proba with
  | some f => .ok (f matrix)
  | none =>
    match pipeline.decision_function with
    | some g => .ok (g matrix)
    | none => .error (.attributeError "decision_function")

/-- `get_or_make_text_ids` (predict.py lines 76-81): the identifiers
carried by the data when that attribute is truthy, else the synthesized
1-based counter `range(1, get_n_rows(data) + 1)` (rendered as `print`
renders it). -/
def get_or_make_text_ids {α : Type} (data : IndexData α) : List String :=
  match data.text_ids with
  | some ids => if ids.isEmpty then (List.range data.n_rows).map (fun i => pyStrNat (i + 1)) else ids
  | none => (List.range data.n_rows).map (fun i => pyStrNat (i + 1))

/-- `report_labels` (predict.py lines 53-55) over the zipped
`(text_id, prediction)` pairs: one output line per pair, stopping with
the exception if the label resolver raises. -/
def report_lines (label : List String) : List (String × Int) → Except Err (List String)
  | [] => .ok []
  | (t, p) :: rest => do
    let l ← resolve_label label p
    let rs ← report_lines label rest
    .ok ((t ++ "\t" ++ labelStr l) :: rs)

def report_labels (predictions : List Int) (text_ids : List String)
    (label : List String) : Except Err (List String) :=
  report_lines label (text_ids.zip predictions)

/-- `report_with_scores` (predict.py lines 58-66) over the zipped
`(text_id, prediction, scores)` triples. -/
def report_score_lines (label : List String) :
    List ((String × Int) × Sum Rat (List Rat)) → Except Err (List String)
  | [] => .ok []
  | ((t, p), sc) :: rest => do
    let l ← resolve_label label p
    let rs ← report_score_lines label rest
    .ok ((t ++ "\t" ++ labelStr l ++ "\t" ++ format_scores sc) :: rs)

def report_with_scores (predictions : List Int)
    (scores : List (Sum Rat (List Rat))) (text_ids : List String)
    (label : List String) : Except Err (List String) :=
  report_score_lines label ((text_ids.zip predictions).zip scores)

/-- `batch_predictor` (predict.py lines 30-50): usage checks on the
index-file list, one whole-matrix `predict` call, optional scores, then
the report.  The output is the list of printed lines. -/
def batch_predictor {α : Type} (args : Args) (data : IndexData α)
    (pipeline : Pipeline α) : Except Err (List String) :=
  if args.index.isEmpty then
    .error (.valueError "missing input data file (inverted index)")
  else if 1 < args.index.length then
    .error (.valueError "more than one input data file (inverted index)")
  else do
    let predictions := pipeline.predict data.index
    let scores ← if args.scores then Except.map some (get_scores pipeline data.index)
      else .ok none
    let text_ids := get_or_make_text_ids data
    match scores with
    | some sc => report_with_scores predictions sc text_ids args.label
    | none => report_labels predictions text_ids args.label

/-- Python `xs[0]` on the per-row score matrix returned by
`predict_proba`/`decision_function` (predict.py lines 132, 135, 137). -/
def getRow0 {β : Type} : List β → Except Err β
  | [] => .error .indexError
  | x :: _ => .ok x

/-- A record of one `append_scores` call: the value of the `no_proba`
argument the caller passed in, whether `predict_proba` was attempted,
and whether its result was used. -/
structure ScoreCall where
  no_proba_arg : Bool
  attempted_proba : Bool
  used_proba : Bool
  deriving Repr, DecidableEq

/-- `append_scores` (predict.py lines 130-141): when `no_proba` is set,
go straight to `decision_function`; otherwise attempt `predict_proba`
and fall back to `decision_function` on `AttributeError`, setting the
local `no_proba` (that rebinding never reaches the caller).  Returns
the printed score line together with the call record. -/
def append_scores {α : Type} (pipeline : Pipeline α) (features : α)
    (no_proba : Bool) : Except Err String × ScoreCall :=
  if no_proba then
    match pipeline.decision_function with
    | some g => (Except.map format_scores (getRow0 (g features)),
        ⟨no_proba, false, false⟩)
    | none => (.error (.attributeError "decision_function"),
        ⟨no_proba, false, false⟩)
  else
    match pipeline.predict_proba with
    | some f => (Except.map format_scores (getRow0 (f features)),
        ⟨no_proba, true, true⟩)
    | none =>
      match pipeline.decision_function with
      | some g => (Except.map format_scores (getRow0 (g features)),
          ⟨no_proba, true, false⟩)
      | none => (.error (.attributeError "decision_function"),
          ⟨no_proba, true, false⟩)

/-- The loop body of `predict_from` (predict.py lines 119-127) for one
decoded `(text_id, features)` row: predict, assert a single prediction
(the fatal `AssertionError` carries the shape in its message), resolve
the label, and append the score string to the line when scores were
requested. -/
def predict_from_row {α : Type} (pipeline : Pipeline α) (args : Args)
    (no_proba : Bool) (row : String × α) : Except Err String :=
  let prediction := pipeline.predict row.2
  if prediction.length = 1 then do
    let l ← resolve_label args.label (prediction.headD 0)
    if args.scores then do
      let s ← (append_scores pipeline row.2 no_proba).1
      .ok (row.1 ++ "\t" ++ labelStr l ++ "\t" ++ s)
    else .ok (row.1 ++ "\t" ++ labelStr l)
  else
    .error (.assertionError
      ("not a single prediction: (" ++ pyStrNat prediction.length ++ ",)"))

/-- The `for text_id, features in stream` loop of `predict_from`.  The
`no_proba` variable is initialised to `False` before the loop
(predict.py line 113) and never reassigned in `predict_from`, so the
state threaded through the fold is left unchanged by every iteration
(the rebinding inside `append_scores` is local to the callee). -/
def predict_from_go {α : Type} (pipeline : Pipeline α) (args : Args) :
    Bool → List (String × α) → Except Err (List String)
  | _, [] => .ok []
  | no_proba, row :: rest => do
    let line ← predict_from_row pipeline args no_proba row
    let rs ← predict_from_go pipeline args no_proba rest
    .ok (line :: rs)

/-- `predict_from` (predict.py lines 105-127) on an already decoded row
stream: the transform/encoder collaborators are out of scope, so the
stream is given as the list of `(text_id, features)` pairs they
yield. -/
def predict_from {α : Type} (pipeline : Pipeline α)
    (rows : List (String × α)) (args : Args) : Except Err (List String) :=
  predict_from_go pipeline args false rows

/-- The sequence of `append_scores` call records made by the
`predict_from` loop when scores are requested, one per decoded row, in
row order; the first argument of `predict_from_calls_go` is the value
of the caller variable `no_proba` at the head row. -/
def predict_from_calls_go {α : Type} (pipeline : Pipeline α) :
    Bool → List (String × α) → List ScoreCall
  | _, [] => []
  | no_proba, row :: rest =>
    (append_scores pipeline row.2 no_proba).2 ::
      predict_from_calls_go pipeline no_proba rest

def predict_from_calls {α : Type} (pipeline : Pipeline α)
    (rows : List (String × α)) : List ScoreCall :=
  predict_from_calls_go pipeline false rows

/-- `stream_predictor` (predict.py lines 84-102): usage check on the
vocabulary, then one `predict_from` run per input source — the decoded
standard-input stream when no index files are given, else the decoded
stream of each file in order.  `rows_of` models the out-of-scope
`row_generator_from_file`/transform chain. -/
def stream_predictor {α : Type} (args : Args) (pipeline : Pipeline α)
    (rows_of : String → List (String × α)) (stdin_rows : List (String × α)) :
    Except Err (List String) :=
  if args.vocabulary.isNone then
    .error (.valueError "missing required option for text input: --vocabulary VOCAB")
  else if args.index.isEmpty then
    predict_from pipeline stdin_rows args
  else
    Except.map List.flatten
      (args.index.mapM (fun file => predict_from pipeline (rows_of file) args))

/-- `predict_labels` (predict.py lines 21-27): dispatch on `args.text`. -/
def predict_labels {α : Type} (args : Args) (data : IndexData α)
    (pipeline : Pipeline α) (rows_of : String → List (String × α))
    (stdin_rows : List (String × α)) : Except Err (List String) :=
  if args.text then stream_predictor args pipeline rows_of stdin_rows
  else batch_predictor args data pipeline

/-- Number of `joblib.load` calls executed by one `predict_from` call:
exactly one, at predict.py line 110. -/
def predict_from_load_count : Nat := 1

/-- Number of `joblib.load` calls executed by `batch_predictor`:
exactly one, at predict.py line 37 (reached only after the usage
checks; the checks themselves load nothing, so one is an upper bound
and the successful-path count). -/
def batch_predictor_load_count : Nat := 1

/-- Number of `joblib.load` calls executed by `stream_predictor`
(predict.py lines 95-102): one `predict_from` call for standard input
when no index files are given, else one per index file. -/
def stream_predictor_load_count (args : Args) : Nat :=
  if args.index.isEmpty then predict_from_load_count
  else args.index.length * predict_from_load_count

/-- Number of `joblib.load` calls executed by `predict_labels`. -/
def predict_labels_load_count (args : Args) : Nat :=
  if args.text then stream_predictor_load_count args
  else batch_predictor_load_count

/-- `True` exactly on the stream-mode fatal assert (predict.py lines
121-123). -/
def isAssertionError {β : Type} : Except Err β → Bool
  | .error (.assertionError _) => true
  | _ => false

/-- Claim C1 counterexample: with both `--no_id` and `--id_second` set,
`find_id_col` returns no identifier column, not column index 1 — the
`no_id` conditional is checked first. -/
theorem c1_counterexample :
    find_id_col ⟨true, [], "m", false, [], some "v", false, true, true, false⟩ = none ∧
    find_id_col ⟨true, [], "m", false, [], some "v", false, true, true, false⟩ ≠ some 1 := by
  decide

/-- Claim C1 (amended): the identifier-column flags are resolved with
the mutually exclusive precedence `no_id > id_second > id_last >
default-first-column`; in particular, whenever `--id_second` is set and
`--no_id` is not, the chosen identifier column is index 1 regardless of
`--id_last`. -/
theorem c1_id_col_precedence (a : Args) :
    (a.no_id = true → find_id_col a = none) ∧
    (a.no_id = false → a.id_second = true → find_id_col a = some 1) ∧
    (a.no_id = false → a.id_second = false → a.id_last = true →
      find_id_col a = some (-1)) ∧
    (a.no_id = false → a.id_second = false → a.id_last = false →
      find_id_col a = some 0) := by
  obtain ⟨t, ix, m, s, lb, v, c, n, i2, il⟩ := a
  cases n <;> cases i2 <;> cases il <;> simp [find_id_col]

/-- Claim C1 witness: `--id_second` with `--id_last` also set (and
`--no_id` unset) chooses column index 1. -/
theorem c1_id_col_precedence_w :
    find_id_col ⟨true, [], "m", false, [], some "v", false, false, true, true⟩ = some 1 :=
  (c1_id_col_precedence ⟨true, [], "m", false, [], some "v", false, false, true, true⟩).2.1
    rfl rfl

/-- Claim C2 counterexample: a stream-mode invocation over two input
files executes `joblib.load` twice (once inside each `predict_from`
call), not exactly once. -/
theorem c2_counterexample :
    predict_labels_load_count
        ⟨true, ["a", "b"], "m", false, [], some "v", false, false, false, false⟩ = 2 ∧
    predict_labels_load_count
        ⟨true, ["a", "b"], "m", false, [], some "v", false, false, false, false⟩ ≠ 1 := by
  decide

/-- Claim C2 (amended): the pipeline is deserialized once per input
source, not once per invocation: batch mode loads it exactly once, and
stream mode loads it once inside each `predict_from` call — once for
the standard-input stream when no index files are given, else once per
input file. -/
theorem c2_load_once_per_source (a : Args) :
    predict_labels_load_count a = if a.text then max 1 a.index.length else 1 := by
  obtain ⟨t, ix, m, s, lb, v, c, n, i2, il⟩ := a
  cases t
  · simp [predict_labels_load_count, batch_predictor_load_count]
  · cases ix <;>
      simp [predict_labels_load_count, stream_predictor_load_count,
        predict_from_load_count]

/-- Claim C5: in batch mode with scores requested, a pipeline exposing
`predict_proba` has its result used, and a pipeline lacking
`predict_proba` but exposing `decision_function` yields scores from the
latter without error. -/
theorem c5_score_capability_fallback {α : Type} (p : Pipeline α) (m : α) :
    (∀ f, p.predict_proba = some f → get_scores p m = .ok (f m)) ∧
    (∀ g, p.predict_proba = none → p.decision_function = some g →
      get_scores p m = .ok (g m)) := by
  constructor
  · intro f hf
    simp [get_scores, hf]
  · intro g hp hg
    simp [get_scores, hp, hg]

/-- Claim C5 witness: a pipeline with only `decision_function` yields
its scores without error. -/
theorem c5_score_capability_fallback_w :
    get_scores (⟨fun _ => [0], none, some fun _ => [Sum.inl 1]⟩ : Pipeline Nat) 0 =
      .ok [Sum.inl 1] :=
  (c5_score_capability_fallback ⟨fun _ => [0], none, some fun _ => [Sum.inl 1]⟩ 0).2
    (fun _ => [Sum.inl 1]) rfl rfl

/-- Claim C10: a loaded data object carrying an empty text-identifier
list is treated exactly like one carrying none at all: the identifiers
are synthesized as the 1-based counter `1..N`. -/
theorem c10_empty_ids_synthesized {α : Type} (x : α) (n : Nat) :
    get_or_make_text_ids (⟨x, some [], n⟩ : IndexData α) =
      get_or_make_text_ids (⟨x, none, n⟩ : IndexData α) ∧
    get_or_make_text_ids (⟨x, some [], n⟩ : IndexData α) =
      (List.range n).map (fun i => pyStrNat (i + 1)) := by
  constructor <;> simp [get_or_make_text_ids]

theorem predict_from_calls_go_false {α : Type} (p : Pipeline α)
    (rows : List (String × α)) :
    ∀ c ∈ predict_from_calls_go p false rows,
      c.no_proba_arg = false ∧ c.attempted_proba = true ∧
        c.used_proba = p.predict_proba.isSome := by
  induction rows with
  | nil => simp [predict_from_calls_go]
  | cons r rs ih =>
    intro c hc
    simp only [predict_from_calls_go, List.mem_cons] at hc
    rcases hc with h | h
    · subst h
      cases hpp : p.predict_proba <;> cases hdf : p.decision_function <;>
        simp [append_scores, hpp, hdf]
    · exact ih c h

/-- Claim C4: in the stream-mode loop, the caller variable `no_proba`
stays `False` for every row, so every row re-attempts `predict_proba`
first, and the fallback to `decision_function` happens only inside that
row's `append_scores` call (its result is used exactly when
`predict_proba` is absent). -/
theorem c4_proba_retried_every_row {α : Type} (p : Pipeline α)
    (rows : List (String × α)) :
    ((predict_from_calls p rows).all fun c =>
        !c.no_proba_arg && c.attempted_proba &&
          (c.used_proba == p.predict_proba.isSome)) = true := by
  rw [List.all_eq_true]
  intro c hc
  obtain ⟨h1, h2, h3⟩ := predict_from_calls_go_false p rows c hc
  simp [h1, h2, h3]

/-- Claim C3 counterexample: with the label list `["a", "b"]`, the
resolver at index `-1` performs Python negative indexing and returns
the name `"b"`; the negative index is not passed through unchanged. -/
theorem c3_counterexample :
    make_label ["a", "b"] (-1) = .ok (.inl "b") ∧
    make_label ["a", "b"] (-1) ≠ .ok (.inr (-1)) := by
  constructor
  · rfl
  · intro h
    rw [make_label] at h
    simp [pyListGet, Except.map] at h

/-- Claim C3 (amended): the resolver returns `L[i]` for `0 ≤ i <
len(L)` and passes `i` through unchanged for `i ≥ len(L)`; but a
negative index is not passed through: for `-len(L) ≤ i < 0` Python
indexing resolves it to `L[len(L) + i]`, and for `i < -len(L)` an
`IndexError` is raised, so the resolver is neither total nor
pass-through on negative indices. -/
theorem c3_label_resolver_python_indexing (L : List String) (i : Int) :
    (0 ≤ i → i < (L.length : Int) →
      ∃ x, L[i.toNat]? = some x ∧ make_label L i = .ok (.inl x)) ∧
    ((L.length : Int) ≤ i → make_label L i = .ok (.inr i)) ∧
    (-(L.length : Int) ≤ i → i < 0 →
      ∃ x, L[((L.length : Int) + i).toNat]? = some x ∧
        make_label L i = .ok (.inl x)) ∧
    (i < -(L.length : Int) → make_label L i = .error .indexError) := by
  refine ⟨?_, ?_, ?_, ?_⟩
  · intro h0 hlt
    have hn : i.toNat < L.length := by omega
    refine ⟨L[i.toNat], List.getElem?_eq_getElem hn, ?_⟩
    rw [make_label, if_pos hlt, pyListGet]
    have hni : ¬i < 0 := by omega
    simp only [hni, if_false, if_pos h0, List.get?_eq_getElem?,
      List.getElem?_eq_getElem hn]
    rfl
  · intro hge
    rw [make_label, if_neg (by omega)]
  · intro hge hlt
    have hn : ((L.length : Int) + i).toNat < L.length := by omega
    refine ⟨L[((L.length : Int) + i).toNat], List.getElem?_eq_getElem hn, ?_⟩
    rw [make_label, if_pos (by omega), pyListGet]
    simp only [hlt, if_true, if_pos (show (0 : Int) ≤ (L.length : Int) + i by omega),
      List.get?_eq_getElem?, List.getElem?_eq_getElem hn]
    rfl
  · intro hlt
    rw [make_label, if_pos (by omega), pyListGet]
    have h0 : ¬(0 : Int) ≤ (L.length : Int) + i := by omega
    simp only [show (i < 0) = True by simp; omega, if_true]
    simp only [h0, if_false]
    rfl

/-- Claim C3 witness: an index equal to the list length is passed
through unchanged. -/
theorem c3_label_resolver_python_indexing_w :
    make_label ["a"] 1 = .ok (.inr 1) :=
  (c3_label_resolver_python_indexing ["a"] 1).2.1 (by decide)

/-- Claim C6: the usage errors are `ValueError`s that propagate
unhandled out of `predict_labels`: batch mode with zero index files,
batch mode with more than one index file, and stream mode without a
vocabulary path. -/
theorem c6_usage_value_errors {α : Type} (args : Args) (d : IndexData α)
    (p : Pipeline α) (rows_of : String → List (String × α))
    (stdin_rows : List (String × α)) :
    (args.text = false → args.index = [] →
      predict_labels args d p rows_of stdin_rows =
        .error (.valueError "missing input data file (inverted index)")) ∧
    (args.text = false → 1 < args.index.length →
      predict_labels args d p rows_of stdin_rows =
        .error (.valueError "more than one input data file (inverted index)")) ∧
    (args.text = true → args.vocabulary = none →
      predict_labels args d p rows_of stdin_rows =
        .error (.valueError "missing required option for text input: --vocabulary VOCAB")) := by
  refine ⟨?_, ?_, ?_⟩
  · intro ht hi
    simp [predict_labels, ht, batch_predictor, hi]
  · intro ht hi
    have hne : args.index.isEmpty = false := by
      cases h : args.index with
      | nil => rw [h] at hi; simp at hi
      | cons a as => simp
    simp [predict_labels, ht, batch_predictor, hne, hi]
  · intro ht hv
    simp [predict_labels, ht, stream_predictor, hv]

/-- Claim C6 witness: batch mode with an empty index-file list yields
the missing-input `ValueError`. -/
theorem c6_usage_value_errors_w :
    predict_labels ⟨false, [], "m", false, [], none, false, false, false, false⟩
        (⟨0, none, 0⟩ : IndexData Nat) ⟨fun _ => [], none, none⟩ (fun _ => []) [] =
      .error (.valueError "missing input data file (inverted index)") :=
  (c6_usage_value_errors ⟨false, [], "m", false, [], none, false, false, false, false⟩
      (⟨0, none, 0⟩ : IndexData Nat) ⟨fun _ => [], none, none⟩ (fun _ => []) []).1
    rfl rfl

theorem except_map_error {β γ : Type} (f : β → γ) (x : Except Err β) (e : Err) :
    Except.map f x = .error e ↔ x = .error e := by
  cases x <;> simp [Except.map]

theorem getRow0_error {β : Type} (l : List β) (e : Err) :
    getRow0 l = .error e → e = .indexError := by
  cases l <;> simp [getRow0]
  intro h
  exact h.symm

theorem pyListGet_error (L : List String) (i : Int) (e : Err) :
    pyListGet L i = .error e → e = .indexError := by
  intro h
  rw [pyListGet] at h
  by_cases hneg : i < 0
  · simp only [if_pos hneg] at h
    by_cases h0 : (0 : Int) ≤ (L.length : Int) + i
    · simp only [if_pos h0] at h
      cases hg : L.get? ((L.length : Int) + i).toNat with
      | some x =>
        rw [hg] at h
        exact absurd h (by simp)
      | none =>
        simp only [hg] at h
        injection h with h
        exact h.symm
    · simp only [if_neg h0] at h
      injection h with h
      exact h.symm
  · simp only [if_neg hneg] at h
    by_cases h0 : (0 : Int) ≤ i
    · simp only [if_pos h0] at h
      cases hg : L.get? i.toNat with
      | some x =>
        rw [hg] at h
        exact absurd h (by simp)
      | none =>
        simp only [hg] at h
        injection h with h
        exact h.symm
    · simp only [if_neg h0] at h
      injection h with h
      exact h.symm

theorem resolve_label_error (L : List String) (i : Int) (e : Err) :
    resolve_label L i = .error e → e = .indexError := by
  rw [resolve_label]
  intro h
  split at h
  · exact absurd h (by simp)
  · rw [make_label] at h
    split at h
    · exact pyListGet_error L i e ((except_map_error _ _ _).mp h)
    · exact absurd h (by simp)

theorem append_scores_fst_error {α : Type} (p : Pipeline α) (feat : α)
    (b : Bool) (e : Err) :
    (append_scores p feat b).1 = .error e →
      e = .indexError ∨ e = .attributeError "decision_function" := by
  rw [append_scores]
  intro h
  split at h
  · split at h
    · exact Or.inl (getRow0_error _ e ((except_map_error _ _ _).mp h))
    · injection h with h
      exact Or.inr h.symm
  · split at h
    · exact Or.inl (getRow0_error _ e ((except_map_error _ _ _).mp h))
    · split at h
      · exact Or.inl (getRow0_error _ e ((except_map_error _ _ _).mp h))
      · injection h with h
        exact Or.inr h.symm

theorem predict_from_row_no_assert {α : Type} (p : Pipeline α) (args : Args)
    (b : Bool) (r : String × α) (h : (p.predict r.2).length = 1) :
    isAssertionError (predict_from_row p args b r) = false := by
  rw [predict_from_row]
  simp only [h, if_pos]
  cases hr : resolve_label args.label ((p.predict r.2).headD 0) with
  | error e =>
    have he := resolve_label_error _ _ _ hr
    subst he
    rfl
  | ok l =>
    cases hs : args.scores with
    | false => rfl
    | true =>
      cases ha : (append_scores p r.2 b).1 with
      | error e =>
        rcases append_scores_fst_error p r.2 b e ha with he | he <;>
          · subst he
            rfl
      | ok s => rfl

theorem except_error_bind {β γ : Type} (e : Err) (f : β → Except Err γ) :
    (Except.error e >>= f : Except Err γ) = Except.error e := rfl

theorem isAssertionError_error_congr {β γ : Type} (e : Err) :
    isAssertionError (Except.error e : Except Err β) =
      isAssertionError (Except.error e : Except Err γ) := by
  cases e <;> rfl

theorem predict_from_go_no_assert {α : Type} (p : Pipeline α) (args : Args)
    (b : Bool) (rows : List (String × α))
    (h : ∀ r ∈ rows, (p.predict r.2).length = 1) :
    isAssertionError (predict_from_go p args b rows) = false := by
  induction rows with
  | nil => simp [predict_from_go, isAssertionError]
  | cons r rs ih =>
    rw [predict_from_go]
    cases hr : predict_from_row p args b r with
    | error e =>
      have hna := predict_from_row_no_assert p args b r (h r (by simp))
      rw [hr] at hna
      simp only [except_error_bind]
      exact Eq.trans (@isAssertionError_error_congr (List String) String e) hna
    | ok line =>
      cases hrest : predict_from_go p args b rs with
      | error e =>
        have hna := ih fun x hx => h x (List.mem_cons_of_mem _ hx)
        rw [hrest] at hna
        exact hna
      | ok ls => rfl

/-- Claim C8: in stream mode, a row whose `predict` result does not
have first dimension 1 (for example shape `(2,)`) triggers the fatal
`AssertionError` carrying the offending shape; and when every row of
the stream yields exactly one prediction, no assertion failure occurs
anywhere in the `predict_from` loop. -/
theorem c8_single_prediction_assert {α : Type} (p : Pipeline α) (args : Args)
    (tid : String) (feat : α) (rows : List (String × α)) :
    ((p.predict feat).length ≠ 1 →
      predict_from_row p args false (tid, feat) =
        .error (.assertionError
          ("not a single prediction: (" ++ pyStrNat (p.predict feat).length ++ ",)"))) ∧
    ((∀ r ∈ rows, (p.predict r.2).length = 1) →
      isAssertionError (predict_from p rows args) = false) := by
  constructor
  · intro h
    rw [predict_from_row]
    simp only [h, if_false]
  · intro h
    exact predict_from_go_no_assert p args false rows h

/-- Claim C8 witness: a pipeline returning two predictions for one row
triggers the assertion with shape `(2,)` in its message, and a stream
whose rows each yield one prediction finishes without an assertion
failure. -/
theorem c8_single_prediction_assert_w :
    predict_from_row (⟨fun _ => [0, 0], none, none⟩ : Pipeline Nat)
        ⟨true, [], "m", false, [], some "v", false, false, false, false⟩ false ("x", 7) =
      .error (.assertionError
        ("not a single prediction: (" ++
          pyStrNat ((⟨fun _ => [0, 0], none, none⟩ : Pipeline Nat).predict 7).length ++ ",)")) :=
  (c8_single_prediction_assert (⟨fun _ => [0, 0], none, none⟩ : Pipeline Nat)
      ⟨true, [], "m", false, [], some "v", false, false, false, false⟩ "x" 7 []).1
    (by decide)

theorem except_ok_bind {β γ : Type} (x : β) (f : β → Except Err γ) :
    (Except.ok x >>= f : Except Err γ) = f x := rfl

theorem report_lines_no_label (pairs : List (String × Int)) :
    report_lines [] pairs =
      .ok (pairs.map fun tp => tp.1 ++ "\t" ++ pyStrInt tp.2) := by
  induction pairs with
  | nil => rfl
  | cons tp rest ih =>
    obtain ⟨t, pr⟩ := tp
    rw [report_lines]
    have h1 : resolve_label [] pr = .ok (.inr pr) := rfl
    rw [h1, except_ok_bind, ih, except_ok_bind]
    rfl

/-- Claim C7: in batch mode over a loaded data object with `N` rows and
no text identifiers, the output has exactly `N` lines, in input row
order, and the identifier field of line `j` is the synthesized 1-based
counter value `j + 1`. -/
theorem c7_batch_counter_ids {α : Type} (args : Args) (d : IndexData α)
    (p : Pipeline α) (rows_of : String → List (String × α))
    (stdin_rows : List (String × α))
    (h1 : args.text = false) (h2 : args.index.length = 1)
    (h3 : args.scores = false) (h4 : args.label = [])
    (h5 : d.text_ids = none)
    (h6 : (p.predict d.index).length = d.n_rows) :
    ∃ lines, predict_labels args d p rows_of stdin_rows = .ok lines ∧
      lines.length = d.n_rows ∧
      ∀ j, j < d.n_rows →
        ∃ rest, lines[j]? = some (pyStrNat (j + 1) ++ "\t" ++ rest) := by
  have hne : args.index.isEmpty = false := by
    cases hx : args.index with
    | nil => rw [hx] at h2; simp at h2
    | cons a as => simp
  have hnotgt : ¬1 < args.index.length := by omega
  have hids : get_or_make_text_ids d =
      (List.range d.n_rows).map (fun i => pyStrNat (i + 1)) := by
    rw [get_or_make_text_ids, h5]
  have hrun : predict_labels args d p rows_of stdin_rows =
      report_lines []
        (((List.range d.n_rows).map (fun i => pyStrNat (i + 1))).zip
          (p.predict d.index)) := by
    rw [predict_labels, if_neg (by rw [h1]; simp)]
    rw [batch_predictor, if_neg (by rw [hne]; simp), if_neg hnotgt]
    rw [if_neg (by rw [h3]; simp), except_ok_bind, hids, h4]
    rfl
  refine ⟨(((List.range d.n_rows).map (fun i => pyStrNat (i + 1))).zip
      (p.predict d.index)).map (fun tp => tp.1 ++ "\t" ++ pyStrInt tp.2),
    ?_, ?_, ?_⟩
  · rw [hrun, report_lines_no_label]
  · simp [List.length_zip, h6]
  · intro j hj
    have hlen : (((List.range d.n_rows).map (fun i => pyStrNat (i + 1))).zip
        (p.predict d.index)).length = d.n_rows := by
      simp [List.length_zip, h6]
    have hjz : j < (((List.range d.n_rows).map (fun i => pyStrNat (i + 1))).zip
        (p.predict d.index)).length := by omega
    have hjp : j < (p.predict d.index).length := by omega
    have hjr : j < ((List.range d.n_rows).map (fun i => pyStrNat (i + 1))).length := by
      simp
      omega
    refine ⟨pyStrInt ((p.predict d.index).get ⟨j, hjp⟩), ?_⟩
    rw [List.getElem?_eq_getElem (by simpa using hjz)]
    congr 1
    rw [List.getElem_map]
    rw [List.getElem_zip]
    simp

/-- Claim C7 witness: a two-row batch index with no text identifiers
yields two lines whose identifiers are 1 and 2. -/
theorem c7_batch_counter_ids_w :
    ∃ lines, predict_labels
        ⟨false, ["f"], "m", false, [], none, false, false, false, false⟩
        (⟨0, none, 2⟩ : IndexData Nat) ⟨fun _ => [4, 5], none, none⟩
        (fun _ => []) [] = .ok lines ∧
      lines.length = 2 ∧
      ∀ j, j < 2 → ∃ rest, lines[j]? = some (pyStrNat (j + 1) ++ "\t" ++ rest) :=
  c7_batch_counter_ids
    ⟨false, ["f"], "m", false, [], none, false, false, false, false⟩
    (⟨0, none, 2⟩ : IndexData Nat) ⟨fun _ => [4, 5], none, none⟩
    (fun _ => []) [] rfl rfl rfl rfl rfl rfl

/-- Claim C9: the score formatter treats a single float score as a
one-element sequence producing exactly one formatted field; every field
is a sign character (minus, or the space produced by the sign flag for
a nonnegative value) followed by at least one integer digit, a decimal
point, and exactly 8 fractional digits; and multiple fields are joined
with tabs. -/
theorem c9_score_formatter (s a b : Rat) :
    (score_fields (.inl s)).length = 1 ∧
    format_scores (.inl s) = pyFormat08 s ∧
    (∃ ip fr, (pyFormat08 s).data =
        (if s < 0 then '-' else ' ') :: (ip ++ '.' :: fr) ∧
      ip ≠ [] ∧ (∀ c ∈ ip, c.isDigit = true) ∧
      fr.length = 8 ∧ (∀ c ∈ fr, c.isDigit = true)) ∧
    format_scores (.inr [a, b]) = pyFormat08 a ++ "\t" ++ pyFormat08 b := by
  refine ⟨rfl, rfl, ?_, rfl⟩
  refine ⟨natDigits ((round (|s| * 100000000)).toNat / 100000000),
    padDigits 8 ((round (|s| * 100000000)).toNat % 100000000), ?_,
    natDigits_ne_nil _, natDigits_all_digit _, padDigits_length 8 _,
    padDigits_all_digit 8 _⟩
  rw [pyFormat08]
  rw [String.data_append, String.data_append, String.data_append]
  by_cases hs : s < 0
  · rw [if_pos hs, if_pos hs]
    simp [pyStrNat]
  · rw [if_neg hs, if_neg hs]
    simp [pyStrNat]

end Classy
